import Mathlib

/-!
Shallow embedding of the orbit-strategies decision layer:
`RetryPolicy` (src/retry-policy.ts), `CachePolicy` (src/cache-policy.ts) and the
query/update decision methods of `OptimisticStrategy`
(src/strategies/optimistic-strategy.ts) and `PessimisticStrategy`
(src/strategies/pessimistic-strategy.ts).

Conventions of the embedding:
* JavaScript numbers used as configuration values are modelled as `Int`
  (they can be negative); timestamps (`Date.now()`) and durations are `Nat`.
* JavaScript truthiness tests on numbers (`if (options.retries)`,
  `delay || this.currentDelay`, `if (loadedAt)`, `if (this.expireIn ...)`)
  are modelled as explicit "is not zero / is not undefined" tests.
* `setTimeout`/`clearTimeout` are modelled by an explicit timer environment
  carried inside the policy state: each effective `retry` allocates a fresh
  timer id, and the history lists `scheduled`, `fired`, `cancelled` and
  `delaysUsed` record what the event loop did.  A `fire` event models the
  timeout callback running; `reset` models `clearTimeout`.
* Asynchronous listeners are modelled as decision functions returning what
  the listener does (pull issued / caller blocked / outcome of a failure
  handler) together with the updated strategy state.
-/

/-- Record identity of @orbit/data: a `type`/`id` pair. -/
structure RecordIdentity where
  type : String
  id : String
deriving DecidableEq

/-- Modelled external collaborator: @orbit/data `serializeRecordIdentity`,
which renders an identity as `type:id`. -/
def serializeRecordIdentity (r : RecordIdentity) : String :=
  r.type ++ ":" ++ r.id

/-- Query expressions used by the strategies (src consults exactly these four
kinds: findRecord, findRecords, findRelatedRecord, findRelatedRecords).
`findRecords` carries its optional `records` list (a filter-only findRecords
has `none`). -/
inductive QueryExpression where
  | findRecord (record : RecordIdentity)
  | findRecords (records : Option (List RecordIdentity))
  | findRelatedRecord (record : RecordIdentity) (relationship : String)
  | findRelatedRecords (record : RecordIdentity) (relationship : String)
deriving DecidableEq

/-- Modelled external collaborator: `JSON.stringify` on a record identity
object, used only through `jsonStringifyExpression`. -/
def jsonStringifyIdentity (r : RecordIdentity) : String :=
  "\x7b\"type\":\"" ++ r.type ++ "\",\"id\":\"" ++ r.id ++ "\"\x7d"

/-- Modelled external collaborator: `JSON.stringify` of a query-expression
object, a canonical structural serialization of the whole expression. -/
def jsonStringifyExpression : QueryExpression → String
  | .findRecord r =>
      "\x7b\"op\":\"findRecord\",\"record\":" ++ jsonStringifyIdentity r ++ "\x7d"
  | .findRecords none => "\x7b\"op\":\"findRecords\"\x7d"
  | .findRecords (some rs) =>
      "\x7b\"op\":\"findRecords\",\"records\":[" ++
        String.intercalate "," (rs.map jsonStringifyIdentity) ++ "]\x7d"
  | .findRelatedRecord r rel =>
      "\x7b\"op\":\"findRelatedRecord\",\"record\":" ++ jsonStringifyIdentity r ++
        ",\"relationship\":\"" ++ rel ++ "\"\x7d"
  | .findRelatedRecords r rel =>
      "\x7b\"op\":\"findRelatedRecords\",\"record\":" ++ jsonStringifyIdentity r ++
        ",\"relationship\":\"" ++ rel ++ "\"\x7d"

/-- Recognized request options of a query (`reload`, `backgroundReload`,
`blocking`), all defaulting to false. -/
structure QueryOptions where
  reload : Bool := false
  backgroundReload : Bool := false
  blocking : Bool := false
deriving DecidableEq

/-- A query: a list of expressions plus optional options
(`query.options` may be undefined, hence `Option`). -/
structure Query where
  expressions : List QueryExpression
  options : Option QueryOptions := none
deriving DecidableEq

/-- Options attached to an update transform; only `blocking` is consulted. -/
structure TransformOptions where
  blocking : Bool := false
deriving DecidableEq

/-- An update transform; the strategies only consult `transform.options`. -/
structure Transform where
  options : Option TransformOptions := none
deriving DecidableEq

/-- The JavaScript test `transform.options && transform.options.blocking`. -/
def Transform.isBlocking (t : Transform) : Bool :=
  match t.options with
  | some o => o.blocking
  | none => false

/-- Error taxonomy: `NetworkError` of @orbit/data (connectivity-class,
tested with `instanceof`) versus every other error (application-class). -/
inductive OrbitError where
  | networkError
  | applicationError
deriving DecidableEq

/-! ## RetryPolicy (src/retry-policy.ts) -/

/-- Constructor options of `RetryPolicy` (every field may be undefined). -/
structure RetryPolicyOptions where
  enabled : Option Bool := none
  retries : Option Int := none
  delay : Option Int := none
  maxDelay : Option Int := none
  factor : Option Int := none
deriving DecidableEq

/-- State of a `RetryPolicy` instance.  `enabled`..`factor` and
`retryTimer`/`numRetries` are the fields of the class (`_retryTimer` is the
pending timer handle, `_retries` the attempt counter).  The remaining fields
model the JavaScript timer environment: `nextTimerId` is the next fresh
`setTimeout` handle, `scheduled`/`fired`/`cancelled` record which timers were
ever scheduled, ran their callback, or were cancelled by `clearTimeout`, and
`delaysUsed` records, in order, the delay passed to each `setTimeout`. -/
structure RetryPolicy where
  enabled : Bool
  retries : Int
  delay : Int
  maxDelay : Int
  factor : Int
  retryTimer : Option Nat
  numRetries : Nat
  nextTimerId : Nat
  scheduled : List Nat
  fired : List Nat
  cancelled : List Nat
  delaysUsed : List Int
deriving DecidableEq

/-- The `RetryPolicy` constructor: defaults enabled=true, retries=5,
delay=200, maxDelay=3200, factor=2; `enabled` is overridden by
`options.enabled !== false`, the numeric fields only by truthy (non-zero)
values, because the constructor tests `if (options.retries)` etc. -/
def mkRetryPolicy (options : Option RetryPolicyOptions) : RetryPolicy :=
  match options with
  | none =>
      { enabled := true, retries := 5, delay := 200, maxDelay := 3200, factor := 2
        retryTimer := none, numRetries := 0, nextTimerId := 1
        scheduled := [], fired := [], cancelled := [], delaysUsed := [] }
  | some o =>
      { enabled := decide (o.enabled ≠ some false)
        retries := match o.retries with | some v => if v = 0 then 5 else v | none => 5
        delay := match o.delay with | some v => if v = 0 then 200 else v | none => 200
        maxDelay := match o.maxDelay with | some v => if v = 0 then 3200 else v | none => 3200
        factor := match o.factor with | some v => if v = 0 then 2 else v | none => 2
        retryTimer := none, numRetries := 0, nextTimerId := 1
        scheduled := [], fired := [], cancelled := [], delaysUsed := [] }

/-- Getter `canRetry`: `this.enabled && this._retries < this.retries`. -/
def RetryPolicy.canRetry (p : RetryPolicy) : Bool :=
  p.enabled && decide ((p.numRetries : Int) < p.retries)

/-- The loop body of the `currentDelay` getter: starting from `delay`,
multiply by `factor` once per recorded attempt. -/
def currentDelayLoop (delay factor : Int) : Nat → Int
  | 0 => delay
  | n + 1 => currentDelayLoop delay factor n * factor

/-- Getter `currentDelay`: `Math.min(delay * factor^_retries, maxDelay)`,
computed by the loop exactly as in the source. -/
def RetryPolicy.currentDelay (p : RetryPolicy) : Int :=
  min (currentDelayLoop p.delay p.factor p.numRetries) p.maxDelay

/-- Method `retry(callback, delay?)`: a no-op if a timer is pending;
otherwise schedules a fresh timer after `delay || this.currentDelay`
(a zero or missing argument falls back to `currentDelay`) and increments
`_retries`. -/
def RetryPolicy.retry (p : RetryPolicy) (delay : Option Int) : RetryPolicy :=
  if p.retryTimer.isSome then p
  else
    let d := match delay with
      | some d0 => if d0 = 0 then p.currentDelay else d0
      | none => p.currentDelay
    { p with
        retryTimer := some p.nextTimerId
        nextTimerId := p.nextTimerId + 1
        numRetries := p.numRetries + 1
        scheduled := p.scheduled ++ [p.nextTimerId]
        delaysUsed := p.delaysUsed ++ [d] }

/-- The `setTimeout` callback wrapper firing for timer `t`: it first clears
`_retryTimer` and then runs the callback (recorded by appending `t` to
`fired`).  A timer that is not the pending one cannot fire. -/
def RetryPolicy.fire (p : RetryPolicy) (t : Nat) : RetryPolicy :=
  if p.retryTimer = some t then
    { p with retryTimer := none, fired := p.fired ++ [t] }
  else p

/-- Method `reset()`: `clearTimeout(this._retryTimer)` (recorded by moving
the pending timer, if any, to `cancelled`), zero the attempt counter and
clear the pending handle. -/
def RetryPolicy.reset (p : RetryPolicy) : RetryPolicy :=
  { p with
      retryTimer := none
      numRetries := 0
      cancelled := p.cancelled ++ p.retryTimer.toList }

/-- Events observable on a `RetryPolicy` instance: a `retry(callback, d?)`
call, the event loop firing timer `t`, or a `reset()` call. -/
inductive RetryEvent where
  | retry (delay : Option Int)
  | fire (t : Nat)
  | reset
deriving DecidableEq

/-- One event applied to the policy state. -/
def RetryPolicy.step (p : RetryPolicy) : RetryEvent → RetryPolicy
  | .retry d => p.retry d
  | .fire t => p.fire t
  | .reset => p.reset

/-- Run a sequence of events. -/
def RetryPolicy.run (p : RetryPolicy) : List RetryEvent → RetryPolicy
  | [] => p
  | e :: es => (p.step e).run es

/-- Number of `retry()` calls in an event sequence. -/
def countRetryCalls : List RetryEvent → Nat
  | [] => 0
  | .retry _ :: es => countRetryCalls es + 1
  | .fire _ :: es => countRetryCalls es
  | .reset :: es => countRetryCalls es

/-- True when the event sequence contains no `reset()` call. -/
def noResetB : List RetryEvent → Bool
  | [] => true
  | .reset :: _ => false
  | .retry _ :: es => noResetB es
  | .fire _ :: es => noResetB es

/-- True when every `retry()` call of the sequence happens while no timer is
pending (each previously scheduled callback has already fired), so that no
call is swallowed by the pending-timer guard. -/
def effectiveFromB (p : RetryPolicy) : List RetryEvent → Bool
  | [] => true
  | .retry d :: es => p.retryTimer.isNone && effectiveFromB (p.retry d) es
  | .fire t :: es => effectiveFromB (p.fire t) es
  | .reset :: es => effectiveFromB p.reset es

/-- Timers that were scheduled but have neither fired nor been cancelled. -/
def RetryPolicy.outstanding (p : RetryPolicy) : List Nat :=
  p.scheduled.filter (fun t => decide (t ∉ p.fired) && decide (t ∉ p.cancelled))

/-- Bookkeeping invariant tying the pending timer to the timer history. -/
structure RetryInv (p : RetryPolicy) : Prop where
  sched_lt : ∀ t ∈ p.scheduled, t < p.nextTimerId
  fired_sched : ∀ t ∈ p.fired, t ∈ p.scheduled
  canc_sched : ∀ t ∈ p.cancelled, t ∈ p.scheduled
  sched_nodup : p.scheduled.Nodup
  timer_sched : ∀ t, p.retryTimer = some t → t ∈ p.scheduled
  timer_fresh : ∀ t, p.retryTimer = some t → t ∉ p.fired ∧ t ∉ p.cancelled
  fired_canc_disj : ∀ t, t ∈ p.fired → t ∉ p.cancelled
  partition : ∀ t ∈ p.scheduled, t ∈ p.fired ∨ t ∈ p.cancelled ∨ p.retryTimer = some t

/-! ## CachePolicy (src/cache-policy.ts) -/

/-- Constructor options of `CachePolicy`. -/
structure CachePolicyOptions where
  enabled : Option Bool := none
  expireIn : Option Nat := none
deriving DecidableEq

/-- Modelled external collaborator: the synchronous record cache of
@orbit/record-cache, used by `CachePolicy` only as an existence oracle.
`records` lists the identities for which `getRecordSync` is defined;
`relatedRecordLinks` (resp. `relatedRecordsLinks`) lists the
(identity, relationship) pairs for which `getRelatedRecordSync`
(resp. `getRelatedRecordsSync`) returns a value other than `undefined`
(a materialized link, possibly null/empty). -/
structure SyncRecordCache where
  records : List RecordIdentity
  relatedRecordLinks : List (RecordIdentity × String)
  relatedRecordsLinks : List (RecordIdentity × String)
deriving DecidableEq

/-- Lookup in the `_loadedExpressions` `Map<string, number>`. -/
def mapGet (m : List (String × Nat)) (k : String) : Option Nat :=
  (m.find? (fun kv => decide (kv.1 = k))).map (fun kv => kv.2)

/-- `Map.set`: replace the binding for `k`, or append a new one. -/
def mapSet (m : List (String × Nat)) (k : String) (v : Nat) : List (String × Nat) :=
  if m.any (fun kv => decide (kv.1 = k)) then
    m.map (fun kv => if kv.1 = k then (k, v) else kv)
  else m ++ [(k, v)]

/-- `Map.delete`: drop the binding for `k`. -/
def mapDelete (m : List (String × Nat)) (k : String) : List (String × Nat) :=
  m.filter (fun kv => decide (kv.1 ≠ k))

/-- State of a `CachePolicy` instance: configuration, the optional record
cache installed by `setCache`, and the `_loadedExpressions` map from
fingerprints to load timestamps. -/
structure CachePolicy where
  enabled : Bool
  expireIn : Option Nat
  cache : Option SyncRecordCache
  loadedExpressions : List (String × Nat)
deriving DecidableEq

/-- The `CachePolicy` constructor: enabled defaults to true and is
overridden by `options.enabled !== false`; `expireIn` is copied verbatim. -/
def mkCachePolicy (options : Option CachePolicyOptions) : CachePolicy :=
  match options with
  | none => { enabled := true, expireIn := none, cache := none, loadedExpressions := [] }
  | some o =>
      { enabled := decide (o.enabled ≠ some false)
        expireIn := o.expireIn
        cache := none
        loadedExpressions := [] }

/-- Method `setCache`. -/
def CachePolicy.setCache (p : CachePolicy) (c : SyncRecordCache) : CachePolicy :=
  { p with cache := some c }

/-- Method `clear()`: drops all freshness records, not oracle state. -/
def CachePolicy.clear (p : CachePolicy) : CachePolicy :=
  { p with loadedExpressions := [] }

/-- Private `queryExpressionToCacheKey`: findRecord uses the serialized
identity, findRelatedRecord the identity plus `:` plus the relationship
name, and everything else (including findRelatedRecords) falls to the
default `JSON.stringify(expression)` branch. -/
def queryExpressionToCacheKey : QueryExpression → String
  | .findRecord r => serializeRecordIdentity r
  | .findRelatedRecord r rel => serializeRecordIdentity r ++ ":" ++ rel
  | e => jsonStringifyExpression e

/-- Private `hasQueryExpressionInCache`: the existence-oracle fallback,
false when no cache was installed; findRecords with a `records` list checks
that every requested identity is present (found count equals requested
count), a filter-only findRecords falls through to false. -/
def CachePolicy.hasQueryExpressionInCache (p : CachePolicy) (e : QueryExpression) : Bool :=
  match p.cache with
  | none => false
  | some c =>
      match e with
      | .findRecord r => c.records.contains r
      | .findRecords (some rs) =>
          decide ((rs.filter (fun r => c.records.contains r)).length = rs.length)
      | .findRecords none => false
      | .findRelatedRecord r rel => c.relatedRecordLinks.contains (r, rel)
      | .findRelatedRecords r rel => c.relatedRecordsLinks.contains (r, rel)

/-- The JavaScript test `this.expireIn && age > this.expireIn`: true when
`expireIn` is set, non-zero (truthy) and strictly smaller than the age. -/
def expiresB (expireIn : Option Nat) (age : Nat) : Bool :=
  match expireIn with
  | some v => decide (v ≠ 0) && decide (v < age)
  | none => false

/-- Private `queryExpressionIsLoaded`: if a truthy timestamp is recorded for
the fingerprint, a failed expiry check deletes the fingerprint and returns
false (without consulting the oracle), otherwise the expression counts as
loaded; with no (or a zero, hence falsy) recorded timestamp the existence
oracle decides.  Returns the result together with the updated policy state
(the eviction is a side effect). -/
def isLoadedAux (p : CachePolicy) (now : Nat) (e : QueryExpression) :
    Option Nat → Bool × CachePolicy
  | some loadedAt =>
      if loadedAt = 0 then (p.hasQueryExpressionInCache e, p)
      else if expiresB p.expireIn (now - loadedAt) then
        (false,
          { p with loadedExpressions :=
              mapDelete p.loadedExpressions (queryExpressionToCacheKey e) })
      else (true, p)
  | none => (p.hasQueryExpressionInCache e, p)

/-- The lookup step of `queryExpressionIsLoaded`. -/
def CachePolicy.queryExpressionIsLoaded (p : CachePolicy) (now : Nat)
    (e : QueryExpression) : Bool × CachePolicy :=
  isLoadedAux p now e (mapGet p.loadedExpressions (queryExpressionToCacheKey e))

/-- The loop of `has`: check the expressions in order and return false at
the first one that is not loaded (the remaining expressions are not
checked), threading the eviction side effects. -/
def hasGo (now : Nat) : CachePolicy → List QueryExpression → Bool × CachePolicy
  | p, [] => (true, p)
  | p, e :: es =>
      match p.queryExpressionIsLoaded now e with
      | (true, p1) => hasGo now p1 es
      | (false, p1) => (false, p1)

/-- Method `has(query)`: false unconditionally when the policy is disabled,
otherwise conjunctive over the expressions. -/
def CachePolicy.has (p : CachePolicy) (now : Nat) (q : Query) : Bool × CachePolicy :=
  if p.enabled then hasGo now p q.expressions else (false, p)

/-- Method `load(query)`: records fingerprint to `now` for every
expression; a no-op when disabled. -/
def CachePolicy.load (p : CachePolicy) (now : Nat) (q : Query) : CachePolicy :=
  if p.enabled then
    let m := q.expressions.foldl
      (fun m e => mapSet m (queryExpressionToCacheKey e) now) p.loadedExpressions
    { p with loadedExpressions := m }
  else p

/-- Specification-side view: the fingerprint of `e` has a recorded truthy
timestamp (a live freshness record). -/
def CachePolicy.hasLiveFingerprint (p : CachePolicy) (e : QueryExpression) : Bool :=
  match mapGet p.loadedExpressions (queryExpressionToCacheKey e) with
  | some t => decide (t ≠ 0)
  | none => false

/-- Specification-side view: the expression is fresh by TTL at `now` (a
recorded, truthy, unexpired fingerprint). -/
def CachePolicy.freshByTTL (p : CachePolicy) (now : Nat) (e : QueryExpression) : Bool :=
  match mapGet p.loadedExpressions (queryExpressionToCacheKey e) with
  | some t => decide (t ≠ 0) && !(expiresB p.expireIn (now - t))
  | none => false

/-- Specification-side per-expression acceptance of `has`: either fresh by
TTL, or, only when no live fingerprint exists, confirmed by the existence
oracle.  (An expired fingerprint therefore fails even when the oracle would
confirm the expression.) -/
def CachePolicy.expressionSatisfied (p : CachePolicy) (now : Nat)
    (e : QueryExpression) : Bool :=
  p.freshByTTL now e ||
    (!(p.hasLiveFingerprint e) && p.hasQueryExpressionInCache e)

/-! ## RemoteStrategy / OptimisticStrategy
(src/strategies/remote-strategy.ts, src/strategies/optimistic-strategy.ts) -/

/-- State and configuration of an `OptimisticStrategy`: the policy
sub-objects, the `_onLine` flag, whether a `catch` handler was supplied, and
the pluggable predicates (the `shouldReload*` ones from `RemoteStrategy`,
the retry ones, all defaulting as in the source). -/
structure OptimisticStrategy where
  cachePolicy : CachePolicy
  retryPolicy : RetryPolicy
  onLine : Bool
  catchHandler : Bool
  shouldReloadRecord : QueryExpression → Option QueryOptions → Bool
  shouldReloadRecords : QueryExpression → Option QueryOptions → Bool
  shouldReloadRelatedRecord : QueryExpression → Option QueryOptions → Bool
  shouldReloadRelatedRecords : QueryExpression → Option QueryOptions → Bool
  shouldRetryQuery : Query → OrbitError → Bool
  shouldRetryUpdate : Transform → OrbitError → Bool

/-- Default `shouldReload*` predicate: always false. -/
def defaultShouldReload : QueryExpression → Option QueryOptions → Bool :=
  fun _ _ => false

/-- Default `shouldRetryQuery`: retry iff the error is a `NetworkError`. -/
def defaultShouldRetryQuery : Query → OrbitError → Bool :=
  fun _ e => e == .networkError

/-- Default `shouldRetryUpdate`: retry iff the error is a `NetworkError`. -/
def defaultShouldRetryUpdate : Transform → OrbitError → Bool :=
  fun _ e => e == .networkError

/-- `RemoteStrategy.shouldReload(query)`: true when the caller passed the
`reload` option or some expression's reload predicate answers true. -/
def OptimisticStrategy.shouldReload (s : OptimisticStrategy) (q : Query) : Bool :=
  (match q.options with | some o => o.reload | none => false) ||
    q.expressions.any (fun e =>
      match e with
      | .findRecord _ => s.shouldReloadRecord e q.options
      | .findRecords _ => s.shouldReloadRecords e q.options
      | .findRelatedRecord _ _ => s.shouldReloadRelatedRecord e q.options
      | .findRelatedRecords _ _ => s.shouldReloadRelatedRecords e q.options)

/-- `OptimisticStrategy.filterBeforeQuery`: reload wins; otherwise a cache
hit skips the network; otherwise pull only while online.  Returns the
decision together with the state updated by `cachePolicy.has`'s eviction
side effects. -/
def OptimisticStrategy.filterBeforeQuery (s : OptimisticStrategy) (now : Nat)
    (q : Query) : Bool × OptimisticStrategy :=
  if s.shouldReload q then (true, s)
  else
    let r := s.cachePolicy.has now q
    let s1 := { s with cachePolicy := r.2 }
    if r.1 then (false, s1) else (s.onLine, s1)

/-- `OptimisticStrategy.blockingBeforeQuery`:
`this.shouldReload(query) || !this.cachePolicy.has(query)`
(with `||` short-circuiting before the stateful `has`). -/
def OptimisticStrategy.blockingBeforeQuery (s : OptimisticStrategy) (now : Nat)
    (q : Query) : Bool × OptimisticStrategy :=
  if s.shouldReload q then (true, s)
  else
    let r := s.cachePolicy.has now q
    (!r.1, { s with cachePolicy := r.2 })

/-- What the optimistic `beforeQuery` listener did for a query. -/
structure QueryDecision where
  pullIssued : Bool
  callerBlocked : Bool
deriving DecidableEq

/-- The optimistic `beforeQuery` listener: return early (local answer,
no network, no error) unless `filterBeforeQuery` passes; otherwise issue
`target.pull` and, when `blockingBeforeQuery` answers true, return the
pull promise (with a catch attached) to the caller. -/
def OptimisticStrategy.beforeQuery (s : OptimisticStrategy) (now : Nat)
    (q : Query) : QueryDecision × OptimisticStrategy :=
  let f := s.filterBeforeQuery now q
  if f.1 then
    let b := f.2.blockingBeforeQuery now q
    ({ pullIssued := true, callerBlocked := b.1 }, b.2)
  else ({ pullIssued := false, callerBlocked := false }, f.2)

/-- `OptimisticStrategy.offLine()`: clear the `_onLine` flag. -/
def OptimisticStrategy.offLine (s : OptimisticStrategy) : OptimisticStrategy :=
  { s with onLine := false }

/-- Modelled from the spec: `RemoteStrategy.retry`, called by the failure
handlers of src/strategies/optimistic-strategy.ts but whose definition is
not among the provided sources; per spec section 4.4 it requeues the failed
target request through `retryPolicy.retry(requeue-this-request)`. -/
def OptimisticStrategy.retryRequest (s : OptimisticStrategy) : OptimisticStrategy :=
  { s with retryPolicy := s.retryPolicy.retry none }

/-- Outcome of an update-failure handler. -/
inductive UpdateFailOutcome where
  | retryRequested
  | thrown
  | caught
deriving DecidableEq

/-- The branching of `updateFailHandler` after the offline flip: retry if
allowed, else a blocking write throws (after skipping both queues), else
the registered catch handler runs, else (with a console warning) the error
is thrown. -/
def OptimisticStrategy.updateFailAfter (s0 : OptimisticStrategy) (t : Transform)
    (e : OrbitError) : UpdateFailOutcome × OptimisticStrategy :=
  if s0.retryPolicy.canRetry && s0.shouldRetryUpdate t e then
    (.retryRequested, s0.retryRequest)
  else if t.isBlocking then (.thrown, s0)
  else if s0.catchHandler then (.caught, s0)
  else (.thrown, s0)

/-- `OptimisticStrategy.updateFailHandler` (src/strategies/
optimistic-strategy.ts): a `NetworkError` flips the strategy offline, then
the branching of `updateFailAfter` runs on the updated state. -/
def OptimisticStrategy.updateFailHandler (s : OptimisticStrategy) (t : Transform)
    (e : OrbitError) : UpdateFailOutcome × OptimisticStrategy :=
  OptimisticStrategy.updateFailAfter
    (if e = .networkError then s.offLine else s) t e

/-- `OptimisticStrategy.generateUpdateFailListener` (src/unnamed/part_003,
an earlier revision of the optimistic strategy kept in the repository):
if attempts remain and the predicate allows, retry at the current
(exponential) delay; otherwise, if the policy is enabled, the strategy is
offline and the predicate allows, retry at `maxDelay`; otherwise a blocking
write throws, a registered catch handler runs, or the error is thrown. -/
def OptimisticStrategy.updateFailListener (s : OptimisticStrategy) (t : Transform)
    (e : OrbitError) : UpdateFailOutcome × OptimisticStrategy :=
  if s.retryPolicy.canRetry && s.shouldRetryUpdate t e then
    (.retryRequested, { s with retryPolicy := s.retryPolicy.retry none })
  else if s.retryPolicy.enabled && !s.onLine && s.shouldRetryUpdate t e then
    (.retryRequested,
      { s with retryPolicy := s.retryPolicy.retry (some s.retryPolicy.maxDelay) })
  else if t.isBlocking then (.thrown, s)
  else if s.catchHandler then (.caught, s)
  else (.thrown, s)

/-! ## PessimisticStrategy (src/strategies/pessimistic-strategy.ts) -/

/-- State and configuration of a `PessimisticStrategy`: policy sub-objects,
`passHints`, and the pluggable reload / background-reload / retry
predicates. -/
structure PessimisticStrategy where
  cachePolicy : CachePolicy
  retryPolicy : RetryPolicy
  passHints : Bool
  shouldReloadRecord : QueryExpression → Option QueryOptions → Bool
  shouldReloadRecords : QueryExpression → Option QueryOptions → Bool
  shouldReloadRelatedRecord : QueryExpression → Option QueryOptions → Bool
  shouldReloadRelatedRecords : QueryExpression → Option QueryOptions → Bool
  shouldBackgroundReloadRecord : QueryExpression → Option QueryOptions → Bool
  shouldBackgroundReloadRecords : QueryExpression → Option QueryOptions → Bool
  shouldBackgroundReloadRelatedRecord : QueryExpression → Option QueryOptions → Bool
  shouldBackgroundReloadRelatedRecords : QueryExpression → Option QueryOptions → Bool
  shouldRetryQuery : Query → OrbitError → Bool
  shouldRetryUpdate : Transform → OrbitError → Bool

/-- Default `shouldBackgroundReload*` predicate: always true. -/
def defaultShouldBackgroundReload : QueryExpression → Option QueryOptions → Bool :=
  fun _ _ => true

/-- `RemoteStrategy.shouldReload(query)` as inherited by the pessimistic
strategy (reload option, else any per-expression reload predicate). -/
def PessimisticStrategy.shouldReload (s : PessimisticStrategy) (q : Query) : Bool :=
  (match q.options with | some o => o.reload | none => false) ||
    q.expressions.any (fun e =>
      match e with
      | .findRecord _ => s.shouldReloadRecord e q.options
      | .findRecords _ => s.shouldReloadRecords e q.options
      | .findRelatedRecord _ _ => s.shouldReloadRelatedRecord e q.options
      | .findRelatedRecords _ _ => s.shouldReloadRelatedRecords e q.options)

/-- `PessimisticStrategy.shouldBackgroundReload(query)`: true when the
caller passed the `backgroundReload` option; otherwise conjunctive over the
per-expression background-reload predicates. -/
def PessimisticStrategy.shouldBackgroundReload (s : PessimisticStrategy)
    (q : Query) : Bool :=
  (match q.options with | some o => o.backgroundReload | none => false) ||
    q.expressions.all (fun e =>
      match e with
      | .findRecord _ => s.shouldBackgroundReloadRecord e q.options
      | .findRecords _ => s.shouldBackgroundReloadRecords e q.options
      | .findRelatedRecord _ _ => s.shouldBackgroundReloadRelatedRecord e q.options
      | .findRelatedRecords _ _ => s.shouldBackgroundReloadRelatedRecords e q.options)

/-- `PessimisticStrategy.filterBeforeQuery`: a reload or background-reload
request always pulls; otherwise pull exactly when the cache misses. -/
def PessimisticStrategy.filterBeforeQuery (s : PessimisticStrategy) (now : Nat)
    (q : Query) : Bool × PessimisticStrategy :=
  if s.shouldReload q || s.shouldBackgroundReload q then (true, s)
  else
    let r := s.cachePolicy.has now q
    (!r.1, { s with cachePolicy := r.2 })

/-- `PessimisticStrategy.blockingBeforeQuery`: do not block exactly when the
cache hits and a background reload is permitted. -/
def PessimisticStrategy.blockingBeforeQuery (s : PessimisticStrategy) (now : Nat)
    (q : Query) : Bool × PessimisticStrategy :=
  let r := s.cachePolicy.has now q
  let s1 := { s with cachePolicy := r.2 }
  if r.1 && s.shouldBackgroundReload q then (false, s1) else (true, s1)

/-- What the pessimistic `beforeQuery` listener did for a query.
`refreshOnSuccess` records that `result.then(() => { retryPolicy.reset();
cachePolicy.load(query); })` was attached to the pull. -/
structure PessimisticQueryDecision where
  pullIssued : Bool
  callerBlocked : Bool
  refreshOnSuccess : Bool
deriving DecidableEq

/-- The pessimistic `beforeQuery` listener: return early unless
`filterBeforeQuery` passes; otherwise issue `target.pull`, attach the
success refresh, and return the promise to the caller (blocking it) exactly
when `blockingBeforeQuery` answers true. -/
def PessimisticStrategy.beforeQuery (s : PessimisticStrategy) (now : Nat)
    (q : Query) : PessimisticQueryDecision × PessimisticStrategy :=
  let f := s.filterBeforeQuery now q
  if f.1 then
    let b := f.2.blockingBeforeQuery now q
    ({ pullIssued := true, callerBlocked := b.1, refreshOnSuccess := true }, b.2)
  else
    ({ pullIssued := false, callerBlocked := false, refreshOnSuccess := false }, f.2)


/-! ## Concrete fixtures used by the claim theorems -/

/-- An effective failing trace: five retry calls, each callback firing
before the next call, and no reset. -/
def c1Trace : List RetryEvent :=
  [.retry none, .fire 1, .retry none, .fire 2, .retry none, .fire 3,
   .retry none, .fire 4, .retry none]

/-- Configuration of the C2 scenario: baseDelay 100, factor 2 (default),
maxDelay 2000. -/
def c2Options : RetryPolicyOptions :=
  { delay := some 100, maxDelay := some 2000 }

/-- Seven effective retries with the intermediate callbacks firing. -/
def c2Trace : List RetryEvent :=
  [.retry none, .fire 1, .retry none, .fire 2, .retry none, .fire 3,
   .retry none, .fire 4, .retry none, .fire 5, .retry none, .fire 6,
   .retry none]

/-- Identity `planet:1` used by the cache fixtures. -/
def planetOne : RecordIdentity := { type := "planet", id := "1" }

/-- Identity `moon:1` used by the cache fixtures. -/
def moonOne : RecordIdentity := { type := "moon", id := "1" }

/-- C3 counterexample fixture: an enabled policy whose only fingerprint is
expired while the oracle confirms the record. -/
def c3Policy : CachePolicy :=
  { enabled := true
    expireIn := some 1
    cache := some
      { records := [planetOne], relatedRecordLinks := [], relatedRecordsLinks := [] }
    loadedExpressions := [(serializeRecordIdentity planetOne, 1)] }

/-- The single expression of the C3 counterexample. -/
def c3Expr : QueryExpression := .findRecord planetOne

/-- The single-expression query of the C3 counterexample. -/
def c3Query : Query := { expressions := [c3Expr] }

/-- C3 witness fixture: one expression fresh by fingerprint, the other
confirmed by the oracle. -/
def c3wPolicy : CachePolicy :=
  { enabled := true
    expireIn := none
    cache := some
      { records := [planetOne], relatedRecordLinks := [], relatedRecordsLinks := [] }
    loadedExpressions := [(serializeRecordIdentity moonOne, 5)] }

/-- The two-expression query of the C3 witness. -/
def c3wQuery : Query :=
  { expressions :=
      [QueryExpression.findRecord planetOne, QueryExpression.findRecord moonOne] }

/-- Identity `planet:saturn` used by the C7 fixtures. -/
def saturn : RecordIdentity := { type := "planet", id := "saturn" }

/-- C7 fixture: a policy with an expired fingerprint for an
oracle-confirmed record. -/
def c7Policy : CachePolicy :=
  { enabled := true
    expireIn := some 100
    cache := some
      { records := [saturn], relatedRecordLinks := [], relatedRecordsLinks := [] }
    loadedExpressions := [(serializeRecordIdentity saturn, 1)] }

/-- The expression of the C7 fixtures. -/
def c7Expr : QueryExpression := .findRecord saturn

/-- An optimistic strategy that is offline, has default policies and
predicates, and no registered catch handler. -/
def passiveOptimistic : OptimisticStrategy :=
  { cachePolicy := mkCachePolicy none
    retryPolicy := mkRetryPolicy none
    onLine := false
    catchHandler := false
    shouldReloadRecord := defaultShouldReload
    shouldReloadRecords := defaultShouldReload
    shouldReloadRelatedRecord := defaultShouldReload
    shouldReloadRelatedRecords := defaultShouldReload
    shouldRetryQuery := defaultShouldRetryQuery
    shouldRetryUpdate := defaultShouldRetryUpdate }

/-- A one-expression query with no options. -/
def plainQuery : Query := { expressions := [QueryExpression.findRecord planetOne] }

/-- A one-expression query carrying the reload option. -/
def c4Query : Query :=
  { expressions := [QueryExpression.findRecord planetOne]
    options := some { reload := true } }

/-- A transform with no options. -/
def tPlain : Transform := { options := none }

/-- A transform with the blocking option. -/
def tBlocking : Transform := { options := some { blocking := true } }

/-- A default retry policy whose attempts are exhausted (5 of 5). -/
def exhaustedPolicy : RetryPolicy := { mkRetryPolicy none with numRetries := 5 }

/-- The offline optimistic strategy with exhausted retry attempts. -/
def c5wStrategy : OptimisticStrategy :=
  { passiveOptimistic with retryPolicy := exhaustedPolicy }

/-- A pessimistic strategy with a warm cache entry for `planet:1`, default
predicates (background reload permitted everywhere) and default policies. -/
def warmPessimistic : PessimisticStrategy :=
  { cachePolicy :=
      { enabled := true, expireIn := none, cache := none
        loadedExpressions := [(serializeRecordIdentity planetOne, 7)] }
    retryPolicy := mkRetryPolicy none
    passHints := true
    shouldReloadRecord := defaultShouldReload
    shouldReloadRecords := defaultShouldReload
    shouldReloadRelatedRecord := defaultShouldReload
    shouldReloadRelatedRecords := defaultShouldReload
    shouldBackgroundReloadRecord := defaultShouldBackgroundReload
    shouldBackgroundReloadRecords := defaultShouldBackgroundReload
    shouldBackgroundReloadRelatedRecord := defaultShouldBackgroundReload
    shouldBackgroundReloadRelatedRecords := defaultShouldBackgroundReload
    shouldRetryQuery := defaultShouldRetryQuery
    shouldRetryUpdate := defaultShouldRetryUpdate }

/-! ## Lemmas about RetryPolicy -/

/-- Events never change the `enabled` configuration. -/
theorem step_enabled (p : RetryPolicy) (e : RetryEvent) :
    (p.step e).enabled = p.enabled := by
  cases e with
  | retry d =>
      simp only [RetryPolicy.step, RetryPolicy.retry]
      split <;> rfl
  | fire t =>
      simp only [RetryPolicy.step, RetryPolicy.fire]
      split <;> rfl
  | reset => rfl

/-- Events never change the `retries` configuration. -/
theorem step_retries (p : RetryPolicy) (e : RetryEvent) :
    (p.step e).retries = p.retries := by
  cases e with
  | retry d =>
      simp only [RetryPolicy.step, RetryPolicy.retry]
      split <;> rfl
  | fire t =>
      simp only [RetryPolicy.step, RetryPolicy.fire]
      split <;> rfl
  | reset => rfl

/-- Runs never change the `enabled` configuration. -/
theorem run_enabled (es : List RetryEvent) : ∀ p : RetryPolicy,
    (p.run es).enabled = p.enabled := by
  induction es with
  | nil => intro p; rfl
  | cons e es ih => intro p; rw [RetryPolicy.run, ih, step_enabled]

/-- Runs never change the `retries` configuration. -/
theorem run_retries (es : List RetryEvent) : ∀ p : RetryPolicy,
    (p.run es).retries = p.retries := by
  induction es with
  | nil => intro p; rfl
  | cons e es ih => intro p; rw [RetryPolicy.run, ih, step_retries]

/-- A fire event never changes the attempt counter. -/
theorem fire_numRetries (p : RetryPolicy) (t : Nat) :
    (p.fire t).numRetries = p.numRetries := by
  simp only [RetryPolicy.fire]
  split <;> rfl

/-- An effective, reset-free run adds exactly the number of `retry()` calls
to the attempt counter. -/
theorem run_numRetries (es : List RetryEvent) : ∀ p : RetryPolicy,
    effectiveFromB p es = true → noResetB es = true →
    (p.run es).numRetries = p.numRetries + countRetryCalls es := by
  induction es with
  | nil => intro p _ _; rfl
  | cons e es ih =>
      intro p heff hnr
      cases e with
      | retry d =>
          simp only [effectiveFromB, Bool.and_eq_true] at heff
          have hnone : p.retryTimer = none := by
            simpa [Option.isNone_iff_eq_none] using heff.1
          have hih := ih (p.retry d) heff.2 (by simpa [noResetB] using hnr)
          have hstep : (p.retry d).numRetries = p.numRetries + 1 := by
            simp [RetryPolicy.retry, hnone]
          calc (p.run (RetryEvent.retry d :: es)).numRetries
              = ((p.retry d).run es).numRetries := rfl
            _ = (p.retry d).numRetries + countRetryCalls es := hih
            _ = p.numRetries + countRetryCalls (RetryEvent.retry d :: es) := by
                rw [hstep, countRetryCalls]; omega
      | fire t =>
          simp only [effectiveFromB] at heff
          have hih := ih (p.fire t) heff (by simpa [noResetB] using hnr)
          calc (p.run (RetryEvent.fire t :: es)).numRetries
              = ((p.fire t).run es).numRetries := rfl
            _ = (p.fire t).numRetries + countRetryCalls es := hih
            _ = p.numRetries + countRetryCalls (RetryEvent.fire t :: es) := by
                rw [fire_numRetries, countRetryCalls]
      | reset => exact absurd hnr (by simp [noResetB])

/-- The invariant holds for a freshly constructed policy. -/
theorem retryInv_mk (o : Option RetryPolicyOptions) : RetryInv (mkRetryPolicy o) := by
  cases o <;>
    exact
      { sched_lt := by intro t ht; simp [mkRetryPolicy] at ht
        fired_sched := by intro t ht; simp [mkRetryPolicy] at ht
        canc_sched := by intro t ht; simp [mkRetryPolicy] at ht
        sched_nodup := by simp [mkRetryPolicy]
        timer_sched := by intro t ht; simp [mkRetryPolicy] at ht
        timer_fresh := by intro t ht; simp [mkRetryPolicy] at ht
        fired_canc_disj := by intro t ht; simp [mkRetryPolicy] at ht
        partition := by intro t ht; simp [mkRetryPolicy] at ht }

/-- The invariant is preserved by `retry`. -/
theorem retryInv_retry {p : RetryPolicy} (h : RetryInv p) (d : Option Int) :
    RetryInv (p.retry d) := by
  cases ht : p.retryTimer with
  | some t => simpa [RetryPolicy.retry, ht] using h
  | none =>
      have hfresh : p.nextTimerId ∉ p.scheduled := by
        intro hx
        exact absurd rfl (Nat.ne_of_lt (h.sched_lt _ hx))
      simp only [RetryPolicy.retry, ht, Option.isSome_none, Bool.false_eq_true,
        if_false]
      refine
        { sched_lt := ?_, fired_sched := ?_, canc_sched := ?_, sched_nodup := ?_
          timer_sched := ?_, timer_fresh := ?_, fired_canc_disj := ?_
          partition := ?_ }
      · intro x hx
        simp only [List.mem_append, List.mem_singleton] at hx
        rcases hx with hx | hx
        · exact Nat.lt_succ_of_lt (h.sched_lt x hx)
        · simp [hx]
      · intro x hx
        simp only [List.mem_append, List.mem_singleton]
        exact Or.inl (h.fired_sched x hx)
      · intro x hx
        simp only [List.mem_append, List.mem_singleton]
        exact Or.inl (h.canc_sched x hx)
      · simpa [List.nodup_append, hfresh] using h.sched_nodup
      · intro x hx
        simp only [Option.some.injEq] at hx
        simp [← hx]
      · intro x hx
        simp only [Option.some.injEq] at hx
        subst hx
        constructor
        · intro hf
          exact hfresh (h.fired_sched _ hf)
        · intro hc
          exact hfresh (h.canc_sched _ hc)
      · intro x hf
        exact h.fired_canc_disj x hf
      · intro x hx
        simp only [List.mem_append, List.mem_singleton] at hx
        rcases hx with hx | hx
        · rcases h.partition x hx with hf | hc | htm
          · exact Or.inl hf
          · exact Or.inr (Or.inl hc)
          · rw [ht] at htm; cases htm
        · exact Or.inr (Or.inr (by simp [hx]))

/-- The invariant is preserved by a timer firing. -/
theorem retryInv_fire {p : RetryPolicy} (h : RetryInv p) (t : Nat) :
    RetryInv (p.fire t) := by
  by_cases ht : p.retryTimer = some t
  · rw [RetryPolicy.fire, if_pos ht]
    refine
      { sched_lt := h.sched_lt, canc_sched := h.canc_sched
        sched_nodup := h.sched_nodup, fired_sched := ?_
        timer_sched := ?_, timer_fresh := ?_, fired_canc_disj := ?_
        partition := ?_ }
    · intro x hx
      simp only [List.mem_append, List.mem_singleton] at hx
      rcases hx with hx | hx
      · exact h.fired_sched x hx
      · rw [hx]; exact h.timer_sched t ht
    · intro x hx; exact Option.noConfusion hx
    · intro x hx; exact Option.noConfusion hx
    · intro x hx
      simp only [List.mem_append, List.mem_singleton] at hx
      rcases hx with hx | hx
      · exact h.fired_canc_disj x hx
      · rw [hx]; exact (h.timer_fresh t ht).2
    · intro x hx
      rcases h.partition x hx with hf | hc | htm
      · exact Or.inl (by simp [List.mem_append, hf])
      · exact Or.inr (Or.inl hc)
      · rw [ht] at htm
        injection htm with htm
        exact Or.inl (by simp [List.mem_append, htm])
  · rw [RetryPolicy.fire, if_neg ht]
    exact h

/-- The invariant is preserved by `reset`. -/
theorem retryInv_reset {p : RetryPolicy} (h : RetryInv p) : RetryInv p.reset := by
  simp only [RetryPolicy.reset]
  refine
    { sched_lt := ?_, fired_sched := ?_, canc_sched := ?_, sched_nodup := ?_
      timer_sched := ?_, timer_fresh := ?_, fired_canc_disj := ?_
      partition := ?_ }
  · exact h.sched_lt
  · exact h.fired_sched
  · intro x hx
    simp only [List.mem_append, Option.mem_toList, Option.mem_def] at hx
    rcases hx with hx | hx
    · exact h.canc_sched x hx
    · exact h.timer_sched x hx
  · exact h.sched_nodup
  · intro x hx; cases hx
  · intro x hx; cases hx
  · intro x hf
    intro hc
    simp only [List.mem_append, Option.mem_toList, Option.mem_def] at hc
    rcases hc with hc | hc
    · exact h.fired_canc_disj x hf hc
    · exact (h.timer_fresh x hc).1 hf
  · intro x hx
    rcases h.partition x hx with hf | hc | htm
    · exact Or.inl hf
    · exact Or.inr (Or.inl (by simp [List.mem_append, hc]))
    · refine Or.inr (Or.inl ?_)
      simp [List.mem_append, htm]

/-- The invariant is preserved by every event. -/
theorem retryInv_step {p : RetryPolicy} (h : RetryInv p) (e : RetryEvent) :
    RetryInv (p.step e) := by
  cases e with
  | retry d => exact retryInv_retry h d
  | fire t => exact retryInv_fire h t
  | reset => exact retryInv_reset h

/-- The invariant is preserved by every run. -/
theorem retryInv_run {p : RetryPolicy} (h : RetryInv p) (es : List RetryEvent) :
    RetryInv (p.run es) := by
  induction es generalizing p with
  | nil => exact h
  | cons e es ih => exact ih (retryInv_step h e)

/-- Cancelled timers stay cancelled. -/
theorem cancelled_subset_step (p : RetryPolicy) (e : RetryEvent) {t : Nat}
    (h : t ∈ p.cancelled) : t ∈ (p.step e).cancelled := by
  cases e with
  | retry d =>
      simp only [RetryPolicy.step, RetryPolicy.retry]
      split
      · exact h
      · exact h
  | fire u =>
      simp only [RetryPolicy.step, RetryPolicy.fire]
      split
      · exact h
      · exact h
  | reset =>
      simp only [RetryPolicy.step, RetryPolicy.reset, List.mem_append]
      exact Or.inl h

/-- A cancelled timer's callback never runs, however execution continues. -/
theorem cancelled_not_fired_run {p : RetryPolicy} (hInv : RetryInv p) {t : Nat}
    (hc : t ∈ p.cancelled) (es : List RetryEvent) : t ∉ (p.run es).fired := by
  induction es generalizing p with
  | nil => exact fun hf => hInv.fired_canc_disj t hf hc
  | cons e es ih => exact ih (retryInv_step hInv e) (cancelled_subset_step p e hc)

/-- A list without duplicates whose elements are all equal has at most one
element. -/
theorem nodup_all_eq_length_le_one {l : List Nat} {t : Nat}
    (hn : l.Nodup) (h : ∀ x ∈ l, x = t) : l.length ≤ 1 := by
  match l with
  | [] => simp
  | [a] => simp
  | a :: b :: l2 =>
      exfalso
      have ha := h a (by simp)
      have hb := h b (by simp)
      rw [List.nodup_cons] at hn
      exact hn.1 (by simp [ha, hb])

/-- Under the invariant at most one scheduled timer is outstanding. -/
theorem outstanding_length_le_one {p : RetryPolicy} (h : RetryInv p) :
    p.outstanding.length ≤ 1 := by
  cases ht : p.retryTimer with
  | none =>
      have hempty : p.outstanding = [] := by
        rw [RetryPolicy.outstanding]
        rw [List.filter_eq_nil_iff]
        intro x hx
        rcases h.partition x hx with hf | hc | htm
        · simp [hf]
        · simp [hc]
        · rw [ht] at htm; exact Option.noConfusion htm
      simp [hempty]
  | some t =>
      have hall : ∀ x ∈ p.outstanding, x = t := by
        intro x hx
        simp only [RetryPolicy.outstanding, List.mem_filter, Bool.and_eq_true,
          decide_eq_true_iff] at hx
        rcases h.partition x hx.1 with hf | hc | htm
        · exact absurd hf hx.2.1
        · exact absurd hc hx.2.2
        · rw [ht] at htm
          injection htm with htm
          exact htm.symm
      have hnd : p.outstanding.Nodup := h.sched_nodup.filter _
      exact nodup_all_eq_length_le_one hnd hall

/-- A reset-free run never decreases the attempt counter. -/
theorem numRetries_le_run (es : List RetryEvent) : ∀ p : RetryPolicy,
    noResetB es = true → p.numRetries ≤ (p.run es).numRetries := by
  induction es with
  | nil => intro p _; exact le_refl _
  | cons e es ih =>
      intro p hnr
      cases e with
      | retry d =>
          refine le_trans ?_ (ih _ (by simpa [noResetB] using hnr))
          simp only [RetryPolicy.step, RetryPolicy.retry]
          split
          · exact le_refl _
          · exact Nat.le_succ _
      | fire t =>
          refine le_trans ?_ (ih _ (by simpa [noResetB] using hnr))
          rw [RetryPolicy.step, fire_numRetries]
      | reset => exact absurd hnr (by simp [noResetB])

/-- The loop of `currentDelay` computes `delay * factor ^ attempts`. -/
theorem currentDelayLoop_eq (d f : Int) (n : Nat) :
    currentDelayLoop d f n = d * f ^ n := by
  induction n with
  | zero => simp [currentDelayLoop]
  | succ n ih => rw [currentDelayLoop, ih, pow_succ, mul_assoc]

/-! ## Lemmas about CachePolicy -/

/-- Deleting a key removes its binding. -/
theorem mapGet_mapDelete (m : List (String × Nat)) (k : String) :
    mapGet (mapDelete m k) k = none := by
  rw [mapGet, mapDelete]
  have hfind : (m.filter (fun kv => decide (kv.1 ≠ k))).find?
      (fun kv => decide (kv.1 = k)) = none := by
    rw [List.find?_eq_none]
    intro kv hkv
    rw [List.mem_filter, decide_eq_true_iff] at hkv
    simp [hkv.2]
  rw [hfind]
  rfl

/-- A positive `queryExpressionIsLoaded` check does not change the state. -/
theorem isLoaded_true_eq {p : CachePolicy} {now : Nat} {e : QueryExpression}
    (h : (p.queryExpressionIsLoaded now e).1 = true) :
    (p.queryExpressionIsLoaded now e).2 = p := by
  rw [CachePolicy.queryExpressionIsLoaded] at h ⊢
  cases hm : mapGet p.loadedExpressions (queryExpressionToCacheKey e) with
  | none => rfl
  | some t =>
      rw [hm] at h
      simp only [isLoadedAux] at h ⊢
      by_cases h0 : t = 0
      · rw [if_pos h0] at h ⊢
      · rw [if_neg h0] at h ⊢
        by_cases hexp : expiresB p.expireIn (now - t) = true
        · rw [if_pos hexp] at h
          cases h
        · rw [if_neg hexp] at h ⊢

/-- The result of `queryExpressionIsLoaded` coincides with the
specification-side acceptance predicate `expressionSatisfied`. -/
theorem isLoaded_fst (p : CachePolicy) (now : Nat) (e : QueryExpression) :
    (p.queryExpressionIsLoaded now e).1 = p.expressionSatisfied now e := by
  rw [CachePolicy.queryExpressionIsLoaded, CachePolicy.expressionSatisfied,
    CachePolicy.freshByTTL, CachePolicy.hasLiveFingerprint]
  cases hm : mapGet p.loadedExpressions (queryExpressionToCacheKey e) with
  | none => simp [isLoadedAux]
  | some t =>
      simp only [isLoadedAux]
      by_cases h0 : t = 0
      · subst h0
        simp
      · rw [if_neg h0]
        by_cases hexp : expiresB p.expireIn (now - t) = true
        · simp [hexp, h0]
        · simp only [Bool.not_eq_true] at hexp
          simp [hexp, h0]

/-- The early-exit loop of `has` answers exactly the conjunction of the
per-expression acceptance predicate over the initial state. -/
theorem hasGo_fst (now : Nat) (es : List QueryExpression) : ∀ p : CachePolicy,
    (hasGo now p es).1 = es.all (fun e => p.expressionSatisfied now e) := by
  induction es with
  | nil => intro p; rfl
  | cons e es ih =>
      intro p
      rw [List.all_cons]
      cases hb : p.queryExpressionIsLoaded now e with
      | mk b p1 =>
          cases b with
          | true =>
              have hp1 : p1 = p := by
                have := @isLoaded_true_eq p now e
                rw [hb] at this
                exact this rfl
              have hsat : p.expressionSatisfied now e = true := by
                rw [← isLoaded_fst, hb]
              rw [hasGo, hb]
              rw [hp1, ih p, hsat, Bool.true_and]
          | false =>
              have hsat : p.expressionSatisfied now e = false := by
                rw [← isLoaded_fst, hb]
              rw [hasGo, hb, hsat, Bool.false_and]

/-- Method `has` in terms of the per-expression acceptance predicate. -/
theorem has_fst (p : CachePolicy) (now : Nat) (q : Query) (h : p.enabled = true) :
    (p.has now q).1 =
      q.expressions.all (fun e => p.expressionSatisfied now e) := by
  rw [CachePolicy.has, if_pos h, hasGo_fst]

/-! ## Claim theorems about RetryPolicy -/

/-- A freshly constructed policy has a zero attempt counter. -/
theorem mk_numRetries (o : Option RetryPolicyOptions) :
    (mkRetryPolicy o).numRetries = 0 := by
  cases o <;> rfl

/-- Claim C1: `canRetry` is true iff the policy is enabled and the number of
effective `retry()` calls since the last reset (each scheduled callback
having fired before the next call) is strictly below the configured
`retries`; with `retries = N`, N such calls make `canRetry` false; a
`reset()` restores `canRetry` to `enabled` (the maximum being positive);
and the callback cancelled by `reset()` never fires in any continuation. -/
theorem retryPolicy_canRetry_spec :
    (∀ (p : RetryPolicy) (es : List RetryEvent),
      p.numRetries = 0 → effectiveFromB p es = true → noResetB es = true →
      ((p.run es).canRetry = true ↔
        (p.enabled = true ∧ (countRetryCalls es : Int) < p.retries)))
    ∧ (∀ (o : Option RetryPolicyOptions) (es : List RetryEvent),
      effectiveFromB (mkRetryPolicy o) es = true → noResetB es = true →
      (countRetryCalls es : Int) = (mkRetryPolicy o).retries →
      ((mkRetryPolicy o).run es).canRetry = false)
    ∧ (∀ p : RetryPolicy, 0 < p.retries → p.reset.canRetry = p.enabled)
    ∧ (∀ (o : Option RetryPolicyOptions) (es1 es2 : List RetryEvent) (t : Nat),
      ((mkRetryPolicy o).run es1).retryTimer = some t →
      t ∉ ((((mkRetryPolicy o).run es1).reset).run es2).fired) := by
  have part1 : ∀ (p : RetryPolicy) (es : List RetryEvent),
      p.numRetries = 0 → effectiveFromB p es = true → noResetB es = true →
      ((p.run es).canRetry = true ↔
        (p.enabled = true ∧ (countRetryCalls es : Int) < p.retries)) := by
    intro p es h0 heff hnr
    have hn := run_numRetries es p heff hnr
    rw [h0, Nat.zero_add] at hn
    rw [RetryPolicy.canRetry, run_enabled, run_retries, hn]
    simp [Bool.and_eq_true, decide_eq_true_iff]
  refine ⟨part1, ?_, ?_, ?_⟩
  · intro o es heff hnr hcount
    cases hh : ((mkRetryPolicy o).run es).canRetry with
    | false => rfl
    | true =>
        have h2 := (part1 (mkRetryPolicy o) es (mk_numRetries o) heff hnr).mp hh
        rw [hcount] at h2
        exact absurd h2.2 (lt_irrefl _)
  · intro p hr
    have hd : decide ((0 : Int) < p.retries) = true := decide_eq_true hr
    simp [RetryPolicy.canRetry, RetryPolicy.reset, hd]
  · intro o es1 es2 t ht
    have hInv : RetryInv ((mkRetryPolicy o).run es1) :=
      retryInv_run (retryInv_mk o) es1
    have hInvR : RetryInv (((mkRetryPolicy o).run es1).reset) :=
      retryInv_reset hInv
    have hc : t ∈ (((mkRetryPolicy o).run es1).reset).cancelled := by
      rw [RetryPolicy.reset]
      simp [ht]
    exact cancelled_not_fired_run hInvR hc es2

/-- Witness for C1 at concrete inputs: five effective retries exhaust the
default policy, and the timer cancelled by a reset never fires later. -/
theorem retryPolicy_canRetry_spec_witness :
    (((mkRetryPolicy none).run c1Trace).canRetry = false)
    ∧ (1 ∉ ((((mkRetryPolicy none).run [RetryEvent.retry none]).reset).run
        [RetryEvent.fire 1, RetryEvent.retry none, RetryEvent.fire 2]).fired) :=
  ⟨retryPolicy_canRetry_spec.2.1 none c1Trace (by decide) (by decide) (by decide),
   retryPolicy_canRetry_spec.2.2.2 none [RetryEvent.retry none]
     [RetryEvent.fire 1, RetryEvent.retry none, RetryEvent.fire 2] 1 (by decide)⟩

/-- Claim C2 (amended): the delay used by `retry` is the explicit delay when
a non-zero one is provided (an explicit 0 is falsy under `delay ||
this.currentDelay` and falls back to the computed delay), and otherwise
`min(baseDelay * factor ^ attempts, maxDelay)`; with baseDelay 100, factor
2 and maxDelay 2000 the successive delays of an uninterrupted failing retry
sequence are 100, 200, 400, 800, 1600, 2000, 2000 — capped at `maxDelay`
and non-decreasing for non-negative base and factor at least one. -/
theorem retryPolicy_delay_spec :
    (∀ p : RetryPolicy,
      p.currentDelay = min (p.delay * p.factor ^ p.numRetries) p.maxDelay)
    ∧ (∀ (p : RetryPolicy) (d : Int), p.retryTimer = none → d ≠ 0 →
      (p.retry (some d)).delaysUsed = p.delaysUsed ++ [d])
    ∧ (∀ p : RetryPolicy, p.retryTimer = none →
      (p.retry none).delaysUsed = p.delaysUsed ++ [p.currentDelay])
    ∧ (∀ p : RetryPolicy, p.retryTimer = none →
      (p.retry (some 0)).delaysUsed = p.delaysUsed ++ [p.currentDelay])
    ∧ (((mkRetryPolicy (some c2Options)).run c2Trace).delaysUsed
        = [100, 200, 400, 800, 1600, 2000, 2000])
    ∧ (∀ (p : RetryPolicy) (n : Nat), 0 ≤ p.delay → 1 ≤ p.factor →
      min (p.delay * p.factor ^ n) p.maxDelay ≤
        min (p.delay * p.factor ^ (n + 1)) p.maxDelay) := by
  refine ⟨?_, ?_, ?_, ?_, by decide, ?_⟩
  · intro p
    rw [RetryPolicy.currentDelay, currentDelayLoop_eq]
  · intro p d h hd
    simp [RetryPolicy.retry, h, hd]
  · intro p h
    simp [RetryPolicy.retry, h]
  · intro p h
    simp [RetryPolicy.retry, h]
  · intro p n hd hf
    have hpow : (0 : Int) ≤ p.factor ^ n := pow_nonneg (le_trans zero_le_one hf) n
    have hbase : (0 : Int) ≤ p.delay * p.factor ^ n := mul_nonneg hd hpow
    have hle : p.delay * p.factor ^ n ≤ p.delay * p.factor ^ (n + 1) := by
      calc p.delay * p.factor ^ n = p.delay * p.factor ^ n * 1 := by ring
        _ ≤ p.delay * p.factor ^ n * p.factor :=
            mul_le_mul_of_nonneg_left hf hbase
        _ = p.delay * p.factor ^ (n + 1) := by rw [pow_succ, mul_assoc]
    exact min_le_min hle (le_refl p.maxDelay)

/-- Claim C2 counterexample: but an explicitly provided delay of 0 is not
used; the default policy schedules at the computed delay 200 instead. -/
theorem retryPolicy_delay_counterexample :
    ((mkRetryPolicy none).retry (some 0)).delaysUsed = [200]
    ∧ (200 : Int) ≠ 0 := by decide

/-- Witness for C2 at concrete inputs: an explicit non-zero delay is used
verbatim, and an omitted delay falls back to `currentDelay`. -/
theorem retryPolicy_delay_spec_witness :
    ((mkRetryPolicy none).retry (some 7)).delaysUsed = [7]
    ∧ ((mkRetryPolicy none).retry none).delaysUsed
        = [(mkRetryPolicy none).currentDelay] :=
  ⟨by
    have h := retryPolicy_delay_spec.2.1 (mkRetryPolicy none) 7 rfl (by decide)
    simpa using h,
   by
    have h := retryPolicy_delay_spec.2.2.1 (mkRetryPolicy none) rfl
    simpa using h⟩

/-- Claim C8: calling `retry` while a retry is pending changes nothing (no
second callback, unchanged counter); the pending flag is cleared before the
callback runs, so the callback's own `retry` is effective and increments
the counter; every reachable state has at most one outstanding scheduled
timer; and the attempt counter never decreases without a `reset()`. -/
theorem retryPolicy_single_outstanding_spec :
    (∀ (p : RetryPolicy) (d : Option Int), p.retryTimer.isSome = true →
      p.retry d = p)
    ∧ (∀ (p : RetryPolicy) (t : Nat) (d : Option Int), p.retryTimer = some t →
      (p.fire t).retryTimer = none ∧
        ((p.fire t).retry d).numRetries = p.numRetries + 1)
    ∧ (∀ (o : Option RetryPolicyOptions) (es : List RetryEvent),
      (((mkRetryPolicy o).run es).outstanding).length ≤ 1)
    ∧ (∀ (p : RetryPolicy) (es : List RetryEvent), noResetB es = true →
      p.numRetries ≤ (p.run es).numRetries) := by
  refine ⟨?_, ?_, ?_, ?_⟩
  · intro p d h
    simp [RetryPolicy.retry, h]
  · intro p t d h
    constructor
    · rw [RetryPolicy.fire, if_pos h]
    · rw [RetryPolicy.fire, if_pos h]
      simp [RetryPolicy.retry]
  · intro o es
    exact outstanding_length_le_one (retryInv_run (retryInv_mk o) es)
  · intro p es h
    exact numRetries_le_run es p h

/-- Witness for C8 at concrete inputs. -/
theorem retryPolicy_single_outstanding_spec_witness :
    ((mkRetryPolicy none).retry none).retry (some 5)
        = (mkRetryPolicy none).retry none
    ∧ (((mkRetryPolicy none).retry none).fire 1).retryTimer = none
    ∧ (((mkRetryPolicy none).run [RetryEvent.retry none]).outstanding).length ≤ 1
    ∧ (mkRetryPolicy none).numRetries ≤
        ((mkRetryPolicy none).run [RetryEvent.retry none]).numRetries :=
  ⟨retryPolicy_single_outstanding_spec.1 ((mkRetryPolicy none).retry none)
      (some 5) (by decide),
   (retryPolicy_single_outstanding_spec.2.1 ((mkRetryPolicy none).retry none)
      1 (some 5) (by decide)).1,
   retryPolicy_single_outstanding_spec.2.2.1 none [RetryEvent.retry none],
   retryPolicy_single_outstanding_spec.2.2.2 (mkRetryPolicy none)
      [RetryEvent.retry none] (by decide)⟩

/-- Claim C10 (amended): a zero value for retries, delay, maxDelay or
factor is ignored (the constructor tests truthiness) and the default 5,
200, 3200 or 2 is kept, so zero allowed retries cannot be configured; and
`canRetry` is initially true for every enabled instance unless a negative
(equally truthy) retries value was configured. -/
theorem retryPolicy_constructor_spec :
    (∀ o : RetryPolicyOptions, o.retries = some 0 →
      (mkRetryPolicy (some o)).retries = 5)
    ∧ (∀ o : RetryPolicyOptions, o.delay = some 0 →
      (mkRetryPolicy (some o)).delay = 200)
    ∧ (∀ o : RetryPolicyOptions, o.maxDelay = some 0 →
      (mkRetryPolicy (some o)).maxDelay = 3200)
    ∧ (∀ o : RetryPolicyOptions, o.factor = some 0 →
      (mkRetryPolicy (some o)).factor = 2)
    ∧ (∀ o : RetryPolicyOptions, (∀ v, o.retries = some v → 0 ≤ v) →
      (mkRetryPolicy (some o)).enabled = true →
      (mkRetryPolicy (some o)).canRetry = true) := by
  refine ⟨?_, ?_, ?_, ?_, ?_⟩
  · intro o h
    simp [mkRetryPolicy, h]
  · intro o h
    simp [mkRetryPolicy, h]
  · intro o h
    simp [mkRetryPolicy, h]
  · intro o h
    simp [mkRetryPolicy, h]
  · intro o hv he
    have hpos : (0 : Int) < (mkRetryPolicy (some o)).retries := by
      show (0 : Int) <
        (match o.retries with | some v => if v = 0 then 5 else v | none => 5)
      cases hr : o.retries with
      | none => decide
      | some v =>
          show (0 : Int) < (if v = 0 then (5 : Int) else v)
          by_cases h0 : v = 0
          · rw [if_pos h0]; norm_num
          · rw [if_neg h0]
            have := hv v hr
            omega
    rw [RetryPolicy.canRetry, he, Bool.true_and]
    rw [show ((mkRetryPolicy (some o)).numRetries : Int) = 0 from rfl]
    exact decide_eq_true hpos

/-- Claim C10 counterexample: but a negative retries value is truthy, is
accepted verbatim, and makes `canRetry` false from the start although the
instance is enabled. -/
theorem retryPolicy_constructor_counterexample :
    (mkRetryPolicy (some { retries := some (-1) })).enabled = true
    ∧ (mkRetryPolicy (some { retries := some (-1) })).retries = -1
    ∧ (mkRetryPolicy (some { retries := some (-1) })).canRetry = false := by
  decide

/-- Witness for C10 at concrete inputs: a zero retries option keeps the
default and leaves the policy initially able to retry. -/
theorem retryPolicy_constructor_spec_witness :
    (mkRetryPolicy (some { retries := some 0 })).retries = 5
    ∧ (mkRetryPolicy (some { retries := some 0 })).canRetry = true :=
  ⟨retryPolicy_constructor_spec.1 { retries := some 0 } rfl,
   retryPolicy_constructor_spec.2.2.2.2 { retries := some 0 }
     (by intro v hv; cases hv; exact le_refl 0) (by decide)⟩

/-! ## Claim theorems about CachePolicy -/

/-- Claim C3 (amended): when disabled, `has` is false unconditionally; when
enabled, `has(query)` is true iff every expression is accepted — fresh by
TTL, or, only in the absence of a live fingerprint, confirmed by the
existence oracle (an expired fingerprint fails without consulting the
oracle); a single unsatisfied expression makes the whole result false. -/
theorem cachePolicy_has_spec :
    (∀ (p : CachePolicy) (now : Nat) (q : Query), p.enabled = false →
      (p.has now q).1 = false)
    ∧ (∀ (p : CachePolicy) (now : Nat) (q : Query), p.enabled = true →
      ((p.has now q).1 = true ↔
        ∀ e ∈ q.expressions, p.expressionSatisfied now e = true)) := by
  constructor
  · intro p now q h
    rw [CachePolicy.has, if_neg (by simp [h])]
  · intro p now q h
    rw [has_fst p now q h, List.all_eq_true]

/-- Claim C3 counterexample: the expression is confirmed by the existence
oracle (so fresh-by-TTL OR oracle holds), yet `has` is false because the
expired fingerprint short-circuits to stale without consulting the
oracle. -/
theorem cachePolicy_has_counterexample :
    c3Policy.enabled = true
    ∧ (c3Policy.freshByTTL 1000 c3Expr
        || c3Policy.hasQueryExpressionInCache c3Expr) = true
    ∧ (c3Policy.has 1000 c3Query).1 = false := by decide

/-- Witness for C3 at concrete inputs: both expressions accepted gives a
hit, and disabling the policy forces a miss. -/
theorem cachePolicy_has_spec_witness :
    (c3wPolicy.has 10 c3wQuery).1 = true
    ∧ (({ c3wPolicy with enabled := false } : CachePolicy).has 10 c3wQuery).1
        = false :=
  ⟨(cachePolicy_has_spec.2 c3wPolicy 10 c3wQuery rfl).mpr (by decide),
   cachePolicy_has_spec.1 { c3wPolicy with enabled := false } 10 c3wQuery rfl⟩

/-- Claim C7 (amended): with a truthy recorded timestamp and a set, truthy
`expireIn` smaller than the age, the check fails AND evicts the fingerprint
as a side effect — without consulting the oracle; only an absent record
falls back to the existence oracle. -/
theorem cachePolicy_expiry_spec :
    (∀ (p : CachePolicy) (now loadedAt expire : Nat) (e : QueryExpression),
      mapGet p.loadedExpressions (queryExpressionToCacheKey e) = some loadedAt →
      loadedAt ≠ 0 → p.expireIn = some expire → expire ≠ 0 →
      expire < now - loadedAt →
      (p.queryExpressionIsLoaded now e).1 = false ∧
        mapGet ((p.queryExpressionIsLoaded now e).2).loadedExpressions
          (queryExpressionToCacheKey e) = none)
    ∧ (∀ (p : CachePolicy) (now : Nat) (e : QueryExpression),
      mapGet p.loadedExpressions (queryExpressionToCacheKey e) = none →
      p.queryExpressionIsLoaded now e = (p.hasQueryExpressionInCache e, p)) := by
  constructor
  · intro p now loadedAt expire e hm h0 hei hez hlt
    have hexp : expiresB p.expireIn (now - loadedAt) = true := by
      rw [hei]
      simp [expiresB, hez, hlt]
    rw [CachePolicy.queryExpressionIsLoaded, hm]
    simp only [isLoadedAux]
    rw [if_neg h0, if_pos hexp]
    exact ⟨rfl, mapGet_mapDelete _ _⟩
  · intro p now e hm
    rw [CachePolicy.queryExpressionIsLoaded, hm]
    rfl

/-- Claim C7 counterexample: the failed expiry check reports stale although
the existence oracle would confirm the expression — the fallback claimed
for expired records does not happen. -/
theorem cachePolicy_expiry_counterexample :
    (c7Policy.queryExpressionIsLoaded 5000 c7Expr).1 = false
    ∧ c7Policy.hasQueryExpressionInCache c7Expr = true := by decide

/-- Witness for C7 at concrete inputs: the failed expiry check evicts the
fingerprint. -/
theorem cachePolicy_expiry_spec_witness :
    (c7Policy.queryExpressionIsLoaded 5000 c7Expr).1 = false
    ∧ mapGet ((c7Policy.queryExpressionIsLoaded 5000 c7Expr).2).loadedExpressions
        (queryExpressionToCacheKey c7Expr) = none :=
  cachePolicy_expiry_spec.1 c7Policy 5000 1 100 c7Expr (by decide) (by decide)
    rfl (by decide) (by decide)

/-- Claim C9 (amended): the fingerprint maps findRecord to the canonical
record identity and findRelatedRecord to identity, colon, relationship;
findRelatedRecords and findRecords fall to the canonical structural
serialization of the whole expression (the function is deterministic by
construction). -/
theorem cacheKey_spec :
    (∀ r : RecordIdentity,
      queryExpressionToCacheKey (.findRecord r) = serializeRecordIdentity r)
    ∧ (∀ (r : RecordIdentity) (rel : String),
      queryExpressionToCacheKey (.findRelatedRecord r rel)
        = serializeRecordIdentity r ++ ":" ++ rel)
    ∧ (∀ (r : RecordIdentity) (rel : String),
      queryExpressionToCacheKey (.findRelatedRecords r rel)
        = jsonStringifyExpression (.findRelatedRecords r rel))
    ∧ (∀ rs : Option (List RecordIdentity),
      queryExpressionToCacheKey (.findRecords rs)
        = jsonStringifyExpression (.findRecords rs)) :=
  ⟨fun _ => rfl, fun _ _ => rfl, fun _ _ => rfl, fun _ => rfl⟩

/-- Claim C9 counterexample: the findRelatedRecords fingerprint is not the
identity plus colon plus relationship — it is the JSON serialization. -/
theorem cacheKey_counterexample :
    queryExpressionToCacheKey (.findRelatedRecords planetOne "moons")
      ≠ serializeRecordIdentity planetOne ++ ":" ++ "moons" := by decide

/-! ## Claim theorems about the strategies -/

/-- The post-flip branching of the update failure handler never changes the
online flag. -/
theorem updateFailAfter_onLine (s0 : OptimisticStrategy) (t : Transform)
    (e : OrbitError) :
    ((OptimisticStrategy.updateFailAfter s0 t e).2).onLine = s0.onLine := by
  rw [OptimisticStrategy.updateFailAfter]
  by_cases h1 : (s0.retryPolicy.canRetry && s0.shouldRetryUpdate t e) = true
  · rw [if_pos h1]
    rfl
  · rw [if_neg h1]
    by_cases h2 : t.isBlocking = true
    · rw [if_pos h2]
    · rw [if_neg h2]
      by_cases h3 : s0.catchHandler = true
      · rw [if_pos h3]
      · rw [if_neg h3]

/-- Claim C4 (amended): the optimistic read touches the network iff
mustReload holds OR the cache is stale AND the strategy is online (a
reload request pulls even while offline); while offline without a reload
request, no pull is issued and the caller is not blocked (it resolves with
the local data, without error). -/
theorem optimistic_touch_network_spec :
    (∀ (s : OptimisticStrategy) (now : Nat) (q : Query),
      (s.filterBeforeQuery now q).1 =
        (s.shouldReload q || (!(s.cachePolicy.has now q).1 && s.onLine)))
    ∧ (∀ (s : OptimisticStrategy) (now : Nat) (q : Query),
      s.onLine = false → s.shouldReload q = false →
      (s.beforeQuery now q).1 =
        { pullIssued := false, callerBlocked := false }) := by
  have part1 : ∀ (s : OptimisticStrategy) (now : Nat) (q : Query),
      (s.filterBeforeQuery now q).1 =
        (s.shouldReload q || (!(s.cachePolicy.has now q).1 && s.onLine)) := by
    intro s now q
    rw [OptimisticStrategy.filterBeforeQuery]
    cases hm : s.shouldReload q with
    | true => simp
    | false =>
        cases hh : (s.cachePolicy.has now q).1 with
        | true => simp [hh]
        | false => simp [hh]
  refine ⟨part1, ?_⟩
  intro s now q hon hm
  have h1 := part1 s now q
  rw [hon, hm] at h1
  simp only [Bool.false_or, Bool.and_false] at h1
  simp only [OptimisticStrategy.beforeQuery]
  rw [h1]
  simp

/-- Claim C4 counterexample: offline with the reload option set, the code
still issues the pull, although "(mustReload or stale) and online" is
false. -/
theorem optimistic_touch_network_counterexample :
    (passiveOptimistic.filterBeforeQuery 0 c4Query).1 = true
    ∧ ((passiveOptimistic.shouldReload c4Query ||
          !(passiveOptimistic.cachePolicy.has 0 c4Query).1) &&
        passiveOptimistic.onLine) = false := by decide

/-- Witness for C4 at concrete inputs: offline with stale data and no
reload request, the query is answered locally with no pull. -/
theorem optimistic_touch_network_spec_witness :
    (passiveOptimistic.filterBeforeQuery 0 plainQuery).1 =
        (passiveOptimistic.shouldReload plainQuery ||
          (!(passiveOptimistic.cachePolicy.has 0 plainQuery).1 &&
            passiveOptimistic.onLine))
    ∧ (passiveOptimistic.beforeQuery 0 plainQuery).1 =
        { pullIssued := false, callerBlocked := false } :=
  ⟨optimistic_touch_network_spec.1 passiveOptimistic 0 plainQuery,
   optimistic_touch_network_spec.2 passiveOptimistic 0 plainQuery rfl (by decide)⟩

/-- Claim C5 (amended): a connectivity-class update failure flips the
strategy offline; when the predicate allows retry and attempts remain, the
retry is scheduled at the current (exponential) delay — the `maxDelay`
reschedule happens only when attempts are exhausted while the policy is
enabled, the strategy is offline and the predicate still allows; otherwise
a blocking write throws, a registered catch handler is invoked, and without
one the failure is thrown — never silently dropped. -/
theorem optimistic_update_failure_spec :
    (∀ (s : OptimisticStrategy) (t : Transform),
      ((s.updateFailHandler t .networkError).2).onLine = false)
    ∧ (∀ (s : OptimisticStrategy) (t : Transform) (e : OrbitError),
      s.retryPolicy.canRetry = false → s.retryPolicy.enabled = true →
      s.onLine = false → s.shouldRetryUpdate t e = true →
      s.retryPolicy.retryTimer = none → s.retryPolicy.maxDelay ≠ 0 →
      (s.updateFailListener t e).1 = .retryRequested ∧
        ((s.updateFailListener t e).2).retryPolicy.delaysUsed =
          s.retryPolicy.delaysUsed ++ [s.retryPolicy.maxDelay])
    ∧ (∀ (s : OptimisticStrategy) (t : Transform) (e : OrbitError),
      (s.retryPolicy.canRetry && s.shouldRetryUpdate t e) = false →
      (s.retryPolicy.enabled && !s.onLine && s.shouldRetryUpdate t e) = false →
      t.isBlocking = true → (s.updateFailListener t e).1 = .thrown)
    ∧ (∀ (s : OptimisticStrategy) (t : Transform) (e : OrbitError),
      (s.retryPolicy.canRetry && s.shouldRetryUpdate t e) = false →
      (s.retryPolicy.enabled && !s.onLine && s.shouldRetryUpdate t e) = false →
      t.isBlocking = false → s.catchHandler = true →
      (s.updateFailListener t e).1 = .caught)
    ∧ (∀ (s : OptimisticStrategy) (t : Transform) (e : OrbitError),
      (s.retryPolicy.canRetry && s.shouldRetryUpdate t e) = false →
      (s.retryPolicy.enabled && !s.onLine && s.shouldRetryUpdate t e) = false →
      t.isBlocking = false → s.catchHandler = false →
      (s.updateFailListener t e).1 = .thrown) := by
  refine ⟨?_, ?_, ?_, ?_, ?_⟩
  · intro s t
    rw [OptimisticStrategy.updateFailHandler, if_pos rfl, updateFailAfter_onLine]
    rfl
  · intro s t e hcr hen hon hsru hnone hmd
    rw [OptimisticStrategy.updateFailListener]
    rw [if_neg (by simp [hcr])]
    rw [if_pos (by simp [hen, hon, hsru])]
    constructor
    · rfl
    · simp [RetryPolicy.retry, hnone, hmd]
  · intro s t e h1 h2 hb
    rw [OptimisticStrategy.updateFailListener, if_neg (by simp [h1]),
      if_neg (by simp [h2]), if_pos hb]
  · intro s t e h1 h2 hb hc
    rw [OptimisticStrategy.updateFailListener, if_neg (by simp [h1]),
      if_neg (by simp [h2]), if_neg (by simp [hb]), if_pos hc]
  · intro s t e h1 h2 hb hc
    rw [OptimisticStrategy.updateFailListener, if_neg (by simp [h1]),
      if_neg (by simp [h2]), if_neg (by simp [hb]), if_neg (by simp [hc])]

/-- Claim C5 counterexample: offline, fresh policy (attempts remain),
connectivity error, default predicate — the retry is scheduled at the
exponential base delay 200, not at maxDelay 3200. -/
theorem optimistic_update_failure_counterexample :
    passiveOptimistic.onLine = false
    ∧ passiveOptimistic.shouldRetryUpdate tPlain OrbitError.networkError = true
    ∧ passiveOptimistic.retryPolicy.canRetry = true
    ∧ passiveOptimistic.retryPolicy.maxDelay = 3200
    ∧ ((passiveOptimistic.updateFailListener tPlain
          OrbitError.networkError).2).retryPolicy.delaysUsed = [200] := by
  decide

/-- Witness for C5 at concrete inputs: the offline flip, the maxDelay
reschedule once attempts are exhausted, and the blocking / catch / throw
outcomes. -/
theorem optimistic_update_failure_spec_witness :
    ((c5wStrategy.updateFailHandler tPlain OrbitError.networkError).2).onLine = false
    ∧ ((c5wStrategy.updateFailListener tPlain OrbitError.networkError).1 =
          UpdateFailOutcome.retryRequested
        ∧ ((c5wStrategy.updateFailListener tPlain
              OrbitError.networkError).2).retryPolicy.delaysUsed =
            c5wStrategy.retryPolicy.delaysUsed ++ [c5wStrategy.retryPolicy.maxDelay])
    ∧ (c5wStrategy.updateFailListener tBlocking OrbitError.applicationError).1 =
        UpdateFailOutcome.thrown
    ∧ (({ c5wStrategy with catchHandler := true } :
          OptimisticStrategy).updateFailListener tPlain
            OrbitError.applicationError).1 = UpdateFailOutcome.caught
    ∧ (c5wStrategy.updateFailListener tPlain OrbitError.applicationError).1 =
        UpdateFailOutcome.thrown :=
  ⟨optimistic_update_failure_spec.1 c5wStrategy tPlain,
   optimistic_update_failure_spec.2.1 c5wStrategy tPlain OrbitError.networkError
     (by decide) (by decide) rfl (by decide) rfl (by decide),
   optimistic_update_failure_spec.2.2.1 c5wStrategy tBlocking
     OrbitError.applicationError (by decide) (by decide) (by decide),
   optimistic_update_failure_spec.2.2.2.1 { c5wStrategy with catchHandler := true }
     tPlain OrbitError.applicationError (by decide) (by decide) (by decide) rfl,
   optimistic_update_failure_spec.2.2.2.2 c5wStrategy tPlain
     OrbitError.applicationError (by decide) (by decide) (by decide) rfl⟩

/-- The pull decision of the pessimistic strategy: reload or background
reload requested, or cache miss. -/
theorem pessimistic_filter_fst (s : PessimisticStrategy) (now : Nat) (q : Query) :
    (s.filterBeforeQuery now q).1 =
      ((s.shouldReload q || s.shouldBackgroundReload q)
        || !(s.cachePolicy.has now q).1) := by
  rw [PessimisticStrategy.filterBeforeQuery]
  cases hmb : s.shouldReload q || s.shouldBackgroundReload q with
  | true => simp
  | false =>
      cases hh : (s.cachePolicy.has now q).1 with
      | true => simp [hh]
      | false => simp [hh]

/-- The blocking decision of the pessimistic strategy: block unless the
cache hits and a background reload is permitted. -/
theorem pessimistic_blocking_fst (s : PessimisticStrategy) (now : Nat) (q : Query) :
    (s.blockingBeforeQuery now q).1 =
      !((s.cachePolicy.has now q).1 && s.shouldBackgroundReload q) := by
  rw [PessimisticStrategy.blockingBeforeQuery]
  cases hc : (s.cachePolicy.has now q).1 && s.shouldBackgroundReload q with
  | true => simp [hc]
  | false => simp [hc]

/-- The pull decision leaves the background-reload predicate unchanged. -/
theorem pessimistic_filter_snd_bg (s : PessimisticStrategy) (now : Nat)
    (q q2 : Query) :
    ((s.filterBeforeQuery now q).2).shouldBackgroundReload q2
      = s.shouldBackgroundReload q2 := by
  rw [PessimisticStrategy.filterBeforeQuery]
  cases hmb : s.shouldReload q || s.shouldBackgroundReload q with
  | true => rfl
  | false => rfl

/-- Claim C6: a pessimistic read blocks the caller iff mustReload holds or
the cache is not fresh, UNLESS the cache is fresh and the background-reload
predicate permits; in that unless-case the caller is not blocked while the
pull is still issued and the success refresh (freshness record reload and
retry reset) is attached without delaying the caller. -/
theorem pessimistic_blocking_spec :
    (∀ (s : PessimisticStrategy) (now : Nat) (q : Query),
      (s.beforeQuery now q).1.callerBlocked =
        ((s.shouldReload q || !(s.cachePolicy.has now q).1) &&
          !((s.cachePolicy.has now q).1 && s.shouldBackgroundReload q)))
    ∧ (∀ (s : PessimisticStrategy) (now : Nat) (q : Query),
      (s.cachePolicy.has now q).1 = true → s.shouldBackgroundReload q = true →
      (s.beforeQuery now q).1 =
        { pullIssued := true, callerBlocked := false, refreshOnSuccess := true }) := by
  constructor
  · intro s now q
    simp only [PessimisticStrategy.beforeQuery]
    cases hmb : s.shouldReload q || s.shouldBackgroundReload q with
    | true =>
        have hf : s.filterBeforeQuery now q = (true, s) := by
          rw [PessimisticStrategy.filterBeforeQuery, if_pos hmb]
        rw [hf]
        simp only [pessimistic_blocking_fst]
        simp only [Bool.or_eq_true] at hmb
        cases hm2 : s.shouldReload q <;>
          cases hbg2 : s.shouldBackgroundReload q <;>
            cases hh : (s.cachePolicy.has now q).1 <;> simp_all
    | false =>
        have hmbs := Bool.or_eq_false_iff.mp hmb
        have hf1 : (s.filterBeforeQuery now q).1 =
            !(s.cachePolicy.has now q).1 := by
          rw [pessimistic_filter_fst, hmb, Bool.false_or]
        cases hh : (s.cachePolicy.has now q).1 with
        | true =>
            rw [hh] at hf1
            rw [hf1]
            simp [hmbs.1, hh]
        | false =>
            rw [hh] at hf1
            rw [hf1]
            simp [pessimistic_blocking_fst, pessimistic_filter_snd_bg,
              hmbs.1, hmbs.2, hh]
  · intro s now q hh hbg
    have hf : s.filterBeforeQuery now q = (true, s) := by
      rw [PessimisticStrategy.filterBeforeQuery, if_pos (by simp [hbg])]
    have hb : (s.blockingBeforeQuery now q).1 = false := by
      rw [pessimistic_blocking_fst, hh, hbg]
      rfl
    simp only [PessimisticStrategy.beforeQuery]
    rw [hf]
    simp [hb]

/-- Witness for C6 at concrete inputs: warm cache with background reload
permitted resolves the caller immediately while the pull and the success
refresh are issued. -/
theorem pessimistic_blocking_spec_witness :
    (warmPessimistic.beforeQuery 10 plainQuery).1 =
      { pullIssued := true, callerBlocked := false, refreshOnSuccess := true } :=
  pessimistic_blocking_spec.2 warmPessimistic 10 plainQuery (by decide) (by decide)
